import Mathlib

/-!
Verification development for the IPL MCP server (src/server/app.py).

The development shallowly embeds the request dispatcher of
IPLMCPServer.handle_request, the seven tool handlers, and the line-oriented
request loop of main.  The SQLite store is modelled as lists of typed rows;
each SQL query body is translated to its relational meaning over those lists
(filter, join, sort, aggregate), with SQL NULL represented by Option and SQL
three-valued comparisons against a NULL parameter yielding false.  Floating
point aggregates are modelled over the exact rationals; only nullness and
exact small-integer arithmetic of those fields is used in the theorems.
-/

namespace IPL

/-- A scalar value occurring in the argument bag of a tools/call request.
Python None (and an absent key, which dict.get also maps to None) is
represented by `null`.  Non-scalar argument values (lists, dicts) cannot be
bound as SQLite parameters and are outside the modelled input space. -/
inductive Scalar where
  | null : Scalar
  | b : Bool → Scalar
  | i : Int → Scalar
  | r : ℚ → Scalar
  | s : String → Scalar
deriving DecidableEq, Repr

/-- Python truthiness, used by the handlers in `if value:` filter guards. -/
def truthy : Scalar → Bool
  | .null => false
  | .b v => v
  | .i n => !(n == 0)
  | .r q => !(q == 0)
  | .s s => !(s == "")

/-- Python str(value), used when a handler interpolates an argument into a
LIKE pattern with an f-string. -/
def pyStr : Scalar → String
  | .null => "None"
  | .b true => "True"
  | .b false => "False"
  | .i n => toString n
  | .r q => toString q
  | .s s => s

/-- The argument bag of a tools/call request: a mapping from key to scalar
value, modelled as an association list (Python dict with string keys). -/
abbrev Arguments := List (String × Scalar)

/-- Python arguments.get(key): None when the key is absent. -/
def dictGet (args : Arguments) (k : String) : Scalar :=
  match List.lookup k args with
  | some v => v
  | none => Scalar.null

/-- Python arguments.get(key, default): the stored value when the key is
present (even when that value is None), otherwise the default. -/
def dictGetD (args : Arguments) (k : String) (d : Scalar) : Scalar :=
  match List.lookup k args with
  | some v => v
  | none => d

/-- JSON values, used for request ids and for the structured result payloads
the handlers build.  Rationals stand for Python floats. -/
inductive Json where
  | null : Json
  | bool : Bool → Json
  | int : Int → Json
  | rat : ℚ → Json
  | str : String → Json
  | arr : List Json → Json
  | obj : List (String × Json) → Json

/-- Field lookup on a JSON object (None on non-objects and missing keys). -/
def jsonGet (j : Json) (k : String) : Option Json :=
  match j with
  | .obj fields => List.lookup k fields
  | _ => none

/-- First element of a JSON array, if any. -/
def jsonHead : Json → Option Json
  | .arr (x :: _) => some x
  | _ => none

def jsonOfOptInt : Option Int → Json
  | some n => .int n
  | none => .null

def jsonOfOptRat : Option ℚ → Json
  | some q => .rat q
  | none => .null

def jsonOfOptStr : Option String → Json
  | some s => .str s
  | none => .null

def scalarToJson : Scalar → Json
  | .null => .null
  | .b v => .bool v
  | .i n => .int n
  | .r q => .rat q
  | .s s => .str s

/-! ### SQL fragment semantics

Comparisons of a column against a bound parameter follow SQLite semantics:
comparison with a NULL parameter selects no row; a numeric parameter
compared against a TEXT-affinity column is compared by its text rendering;
a text parameter compared against an INTEGER-affinity column is compared
numerically when it parses as an integer and otherwise never sorts equal to
an integer (numbers order before text in SQLite). -/

/-- Meaning of the SQL condition "textColumn = ?" with the given parameter. -/
def sqlEqStr (col : String) (v : Scalar) : Bool :=
  match v with
  | .s s => col == s
  | .i n => col == toString n
  | .r q => col == toString q
  | .b bv => col == (if bv then "1" else "0")
  | .null => false

/-- Meaning of the SQL condition "intColumn = ?" with the given parameter. -/
def sqlEqInt (col : Int) (v : Scalar) : Bool :=
  match v with
  | .i n => col == n
  | .b bv => col == (if bv then (1 : Int) else 0)
  | .r q => (col : ℚ) == q
  | .s s => match s.toInt? with
    | some n => col == n
    | none => false
  | .null => false

/-- Meaning of the SQL condition "intColumn >= ?" with the given parameter. -/
def sqlGeInt (col : Int) (v : Scalar) : Bool :=
  match v with
  | .i n => decide (col ≥ n)
  | .b bv => decide (col ≥ (if bv then (1 : Int) else 0))
  | .r q => decide ((col : ℚ) ≥ q)
  | .s s => match s.toInt? with
    | some n => decide (col ≥ n)
    | none => true
  | .null => false

/-- Meaning of the SQL condition "intColumn <= ?" with the given parameter. -/
def sqlLeInt (col : Int) (v : Scalar) : Bool :=
  match v with
  | .i n => decide (col ≤ n)
  | .b bv => decide (col ≤ (if bv then (1 : Int) else 0))
  | .r q => decide ((col : ℚ) ≤ q)
  | .s s => match s.toInt? with
    | some n => decide (col ≤ n)
    | none => true
  | .null => false

/-- Whether the first list occurs as a contiguous segment of the second. -/
def listInfix [BEq α] (needle : List α) : List α → Bool
  | [] => needle.isEmpty
  | a :: t => needle.isPrefixOf (a :: t) || listInfix needle t

/-- Meaning of the SQL condition "column LIKE ?" where the handler passes the
pattern "%pat%": case-insensitive substring containment (the handlers only
ever wrap the raw argument in percent wildcards). -/
def likeSub (col : String) (pat : String) : Bool :=
  listInfix pat.toLower.toList col.toLower.toList

/-- SQL SUM over a non-NULL integer column: NULL on the empty row set. -/
def sqlSumInt (xs : List Int) : Option Int :=
  match xs with
  | [] => none
  | _ => some xs.sum

/-- SQL AVG over a non-NULL integer column: NULL on the empty row set. -/
def sqlAvg (xs : List Int) : Option ℚ :=
  match xs with
  | [] => none
  | _ => some (((xs.sum : Int) : ℚ) / (xs.length : ℚ))

/-- SQL CAST(x AS FLOAT) on a possibly NULL integer. -/
def sqlCastFloat (a : Option Int) : Option ℚ :=
  a.map fun n => (n : ℚ)

/-- SQL division: NULL when either operand is NULL or the divisor is zero. -/
def sqlDivOpt (a : Option ℚ) (b : ℚ) : Option ℚ :=
  match a with
  | none => none
  | some x => if b = 0 then none else some (x / b)

/-- SQL ROUND(x, 2), on exact rationals. -/
def round2 (q : ℚ) : ℚ :=
  ((round (q * 100) : ℤ) : ℚ) / 100

/-! ### The relational store

Row types follow the columns the server queries assume.  The matches and
deliveries tables are created by src/scripts/load_data.py (the server
additionally filters matches on a season column and reads delivery columns
under the names used in its own queries; the store is the external
ingestion collaborator of the spec and is modelled with the columns the
server reads).  The teams, players, innings and officials tables are not
created under src/; they are modelled from the spec (section 6, persisted
state) with exactly the columns the server queries mention. -/

structure Delivery where
  id : Int
  match_id : String
  innings : Int
  over : Int
  ball : Int
  batter : String
  non_striker : String
  bowler : String
  runs_batter : Int
  runs_extras : Int
  runs_total : Int
  wicket_type : Option String
  player_dismissed : Option String
deriving DecidableEq, Repr

structure MatchRow where
  id : String
  date : String
  city : String
  venue : String
  team1 : String
  team2 : String
  toss_winner : String
  toss_decision : String
  winner : String
  result : String
  margin : String
  season : Int
deriving DecidableEq, Repr

/-- Modelled from the spec: the teams table is produced by the external
ingestion collaborator; columns are those the server query reads. -/
structure TeamRow where
  id : Int
  name : String
  short_name : String
deriving DecidableEq, Repr

/-- Modelled from the spec: the players table of the external store. -/
structure PlayerRow where
  id : Int
  name : String
  team : String
deriving DecidableEq, Repr

/-- Modelled from the spec: the innings summary table of the external
store. -/
structure InningsRow where
  match_id : String
  innings_number : Int
  total_runs : Int
  total_wickets : Int
  total_overs : ℚ
deriving DecidableEq, Repr

/-- Modelled from the spec: the officials table of the external store. -/
structure OfficialRow where
  id : Int
  match_id : String
  name : String
  role : String
deriving DecidableEq, Repr

structure Store where
  matchesTbl : List MatchRow
  deliveries : List Delivery
  teams : List TeamRow
  players : List PlayerRow
  innings : List InningsRow
  officials : List OfficialRow

/-- The database as the handlers see it.  The fault flag models a
sqlite3.Error being raised while a query executes (missing table, locked
database and the like); execute_query catches exactly that class. -/
structure DB where
  store : Store
  fault : Bool

/-- IPLMCPServer.execute_query: runs a query and returns its rows; on a
sqlite3.Error it logs to stderr and returns the empty row set. -/
def execute_query (db : DB) (rows : List α) : List α :=
  if db.fault then [] else rows

def encodeDelivery (d : Delivery) : List (String × Json) :=
  [("id", .int d.id), ("match_id", .str d.match_id), ("innings", .int d.innings),
   ("over", .int d.over), ("ball", .int d.ball), ("batter", .str d.batter),
   ("non_striker", .str d.non_striker), ("bowler", .str d.bowler),
   ("runs_batter", .int d.runs_batter), ("runs_extras", .int d.runs_extras),
   ("runs_total", .int d.runs_total),
   ("wicket_type", jsonOfOptStr d.wicket_type),
   ("player_dismissed", jsonOfOptStr d.player_dismissed)]

def encodeMatch (m : MatchRow) : Json :=
  .obj [("id", .str m.id), ("date", .str m.date), ("city", .str m.city),
        ("venue", .str m.venue), ("team1", .str m.team1), ("team2", .str m.team2),
        ("toss_winner", .str m.toss_winner), ("toss_decision", .str m.toss_decision),
        ("winner", .str m.winner), ("result", .str m.result),
        ("margin", .str m.margin), ("season", .int m.season)]

/-! ### handle_get_ball_by_ball -/

/-- The conjunction of WHERE conditions built by handle_get_ball_by_ball:
"d.match_id = ?" always; "d.innings = ?" appended when the innings argument
is truthy; "d.over >= ?" and "d.over <= ?" appended when the respective
argument is not None. -/
def bbbPred (match_id innings over_start over_end : Scalar) (d : Delivery) : Bool :=
  sqlEqStr d.match_id match_id
  && (if truthy innings then sqlEqInt d.innings innings else true)
  && (if over_start ≠ Scalar.null then sqlGeInt d.over over_start else true)
  && (if over_end ≠ Scalar.null then sqlLeInt d.over over_end else true)

/-- A row of the ball-by-ball query: SELECT d.*, m.team1, m.team2. -/
structure BBRow where
  delivery : Delivery
  m_team1 : String
  m_team2 : String
deriving DecidableEq, Repr

/-- JOIN matches m ON m.id = d.match_id over the filtered deliveries. -/
def bbbJoin (db : DB) (p : Delivery → Bool) : List BBRow :=
  (db.store.deliveries.filter p).flatMap fun d =>
    (db.store.matchesTbl.filter fun m => m.id == d.match_id).map fun m =>
      { delivery := d, m_team1 := m.team1, m_team2 := m.team2 }

/-- ORDER BY d.innings, d.over, d.ball (non-strict lexicographic order). -/
def bbbLe (a b : BBRow) : Prop :=
  a.delivery.innings < b.delivery.innings
  ∨ (a.delivery.innings = b.delivery.innings
     ∧ (a.delivery.over < b.delivery.over
        ∨ (a.delivery.over = b.delivery.over ∧ a.delivery.ball ≤ b.delivery.ball)))

/-- Strict lexicographic order on (innings, over, ball). -/
def bbbLt (a b : BBRow) : Prop :=
  a.delivery.innings < b.delivery.innings
  ∨ (a.delivery.innings = b.delivery.innings
     ∧ (a.delivery.over < b.delivery.over
        ∨ (a.delivery.over = b.delivery.over ∧ a.delivery.ball < b.delivery.ball)))

instance : DecidableRel bbbLe := fun a b => by unfold bbbLe; infer_instance

instance : DecidableRel bbbLt := fun a b => by unfold bbbLt; infer_instance

instance : IsTotal BBRow bbbLe := ⟨by intro a b; unfold bbbLe; omega⟩

instance : IsTrans BBRow bbbLe := ⟨by intro a b c; unfold bbbLe; omega⟩

/-- The delivery rows returned by the ball-by-ball query, in query order. -/
def ballByBallRows (db : DB) (args : Arguments) : List BBRow :=
  execute_query db
    (List.insertionSort bbbLe
      (bbbJoin db
        (bbbPred (dictGet args "match_id") (dictGet args "innings")
          (dictGet args "over_start") (dictGet args "over_end"))))

def encodeBBRow (r : BBRow) : Json :=
  .obj (encodeDelivery r.delivery ++ [("team1", .str r.m_team1), ("team2", .str r.m_team2)])

/-- The (innings, over) pair of a returned delivery row. -/
def overKey (r : BBRow) : Int × Int :=
  (r.delivery.innings, r.delivery.over)

/-- IPLMCPServer.handle_get_ball_by_ball. -/
def handle_get_ball_by_ball (db : DB) (args : Arguments) : Json :=
  let rows := ballByBallRows db args
  let match_info :=
    (execute_query db
      (db.store.matchesTbl.filter fun m => sqlEqStr m.id (dictGet args "match_id"))).head?
  Json.obj
    [("match_info", match match_info with | some m => encodeMatch m | none => .null),
     ("deliveries", .arr (rows.map encodeBBRow)),
     ("total_deliveries", .int rows.length),
     ("overs_covered", .int ((rows.map overKey).dedup.length))]

/-! ### handle_get_player_performance -/

/-- WHERE clause of the batting aggregate: d.batter LIKE the wrapped player
name; d.match_id = ? appended when the match_id argument is truthy. -/
def battingPred (args : Arguments) (d : Delivery) : Bool :=
  likeSub d.batter (pyStr (dictGet args "player_name"))
  && (if truthy (dictGet args "match_id") then
        sqlEqStr d.match_id (dictGet args "match_id") else true)

/-- WHERE clause of the bowling aggregate. -/
def bowlingPred (args : Arguments) (d : Delivery) : Bool :=
  likeSub d.bowler (pyStr (dictGet args "player_name"))
  && (if truthy (dictGet args "match_id") then
        sqlEqStr d.match_id (dictGet args "match_id") else true)

/-- ROUND(CAST(SUM(runs) AS FLOAT) / COUNT(id) * factor, 2) over the
filtered rows: NULL when the sum is NULL or the count is zero. -/
def rateOf (runs : List Int) (factor : ℚ) : Option ℚ :=
  (sqlDivOpt (sqlCastFloat (sqlSumInt runs)) (runs.length : ℚ)).map fun q =>
    round2 (q * factor)

/-- The single row returned by the batting aggregate query, as a JSON
object in column order. -/
def battingAgg (rows : List Delivery) : Json :=
  .obj [("balls_faced", .int rows.length),
        ("runs_scored", jsonOfOptInt (sqlSumInt (rows.map Delivery.runs_batter))),
        ("fours", .int (rows.countP fun d => d.runs_batter == 4)),
        ("sixes", .int (rows.countP fun d => d.runs_batter == 6)),
        ("boundaries", .int (rows.countP fun d => decide (d.runs_batter ≥ 4))),
        ("strike_rate", jsonOfOptRat (rateOf (rows.map Delivery.runs_batter) 100)),
        ("matches_played", .int ((rows.map Delivery.match_id).dedup.length))]

/-- The single row returned by the bowling aggregate query. -/
def bowlingAgg (rows : List Delivery) : Json :=
  .obj [("balls_bowled", .int rows.length),
        ("runs_conceded", jsonOfOptInt (sqlSumInt (rows.map Delivery.runs_total))),
        ("wickets", .int (rows.countP fun d =>
          match d.wicket_type with
          | some w => !(w == "")
          | none => false)),
        ("economy_rate", jsonOfOptRat (rateOf (rows.map Delivery.runs_total) 6)),
        ("matches_bowled", .int ((rows.map Delivery.match_id).dedup.length))]

/-- performance['batting']: the first row of the batting query result, the
empty mapping when the query yielded no rows. -/
def battingBlock (db : DB) (args : Arguments) : Json :=
  match execute_query db [battingAgg (db.store.deliveries.filter (battingPred args))] with
  | r :: _ => r
  | [] => Json.obj []

/-- performance['bowling']: likewise for the bowling query. -/
def bowlingBlock (db : DB) (args : Arguments) : Json :=
  match execute_query db [bowlingAgg (db.store.deliveries.filter (bowlingPred args))] with
  | r :: _ => r
  | [] => Json.obj []

/-- The performance mapping: a batting entry when stat_type is batting or
all, then a bowling entry when stat_type is bowling or all, in insertion
order.  stat_type defaults to "all" when the key is absent. -/
def performanceBlocks (db : DB) (args : Arguments) : List (String × Json) :=
  let stat := dictGetD args "stat_type" (Scalar.s "all")
  (if stat == Scalar.s "batting" || stat == Scalar.s "all" then
    [("batting", battingBlock db args)] else [])
  ++ (if stat == Scalar.s "bowling" || stat == Scalar.s "all" then
    [("bowling", bowlingBlock db args)] else [])

/-- IPLMCPServer.handle_get_player_performance. -/
def handle_get_player_performance (db : DB) (args : Arguments) : Json :=
  Json.obj
    [("player_name", scalarToJson (dictGet args "player_name")),
     ("match_id", scalarToJson (dictGet args "match_id")),
     ("stat_type", scalarToJson (dictGetD args "stat_type" (Scalar.s "all"))),
     ("performance", .obj (performanceBlocks db args))]

/-! ### handle_get_team_info

GROUP BY on the table primary key is modelled as one output row per table
row; the ungrouped branch orders by team name, the filtered branch keeps
table order (the SQL has no ORDER BY there). -/

/-- One row of the team aggregate: t.*, wins, total_matches over the LEFT
JOIN with matches on team1 or team2. -/
def encodeTeamInfoRow (db : DB) (t : TeamRow) : Json :=
  let joined := db.store.matchesTbl.filter fun m => m.team1 == t.name || m.team2 == t.name
  .obj [("id", .int t.id), ("name", .str t.name), ("short_name", .str t.short_name),
        ("wins", .int (joined.countP fun m => m.winner == t.name)),
        ("total_matches", .int joined.length)]

/-- IPLMCPServer.handle_get_team_info. -/
def handle_get_team_info (db : DB) (args : Arguments) : Json :=
  let team_name := dictGet args "team_name"
  let results :=
    if truthy team_name then
      execute_query db
        ((db.store.teams.filter fun t =>
          likeSub t.name (pyStr team_name) || likeSub t.short_name (pyStr team_name)).map
          (encodeTeamInfoRow db))
    else
      execute_query db
        ((List.insertionSort (fun a b => decide (a.name ≤ b.name) = true)
          db.store.teams).map (encodeTeamInfoRow db))
  Json.obj [("teams", .arr results), ("total_teams", .int results.length)]

/-! ### handle_get_player_info -/

/-- LEFT JOIN deliveries d ON d.batter = p.name OR d.bowler = p.name. -/
def playerJoinRows (db : DB) (p : PlayerRow) : List Delivery :=
  db.store.deliveries.filter fun d => d.batter == p.name || d.bowler == p.name

/-- ORDER BY total_runs DESC NULLS LAST, p.name. -/
def piLeB (db : DB) (a b : PlayerRow) : Bool :=
  match sqlSumInt ((playerJoinRows db a).map Delivery.runs_batter),
        sqlSumInt ((playerJoinRows db b).map Delivery.runs_batter) with
  | some x, some y => decide (x > y) || (x == y && decide (a.name ≤ b.name))
  | some _, none => true
  | none, some _ => false
  | none, none => decide (a.name ≤ b.name)

def encodePlayerInfoRow (db : DB) (p : PlayerRow) : Json :=
  let ds := playerJoinRows db p
  .obj [("id", .int p.id), ("name", .str p.name), ("team", .str p.team),
        ("total_deliveries", .int ds.length),
        ("total_runs", jsonOfOptInt (sqlSumInt (ds.map Delivery.runs_batter))),
        ("avg_runs_per_delivery", jsonOfOptRat (sqlAvg (ds.map Delivery.runs_batter))),
        ("boundaries", .int (ds.countP fun d => decide (d.runs_batter ≥ 4)))]

/-- IPLMCPServer.handle_get_player_info. -/
def handle_get_player_info (db : DB) (args : Arguments) : Json :=
  let pn := dictGet args "player_name"
  let tn := dictGet args "team_name"
  let filtered := db.store.players.filter fun p =>
    (if truthy pn then likeSub p.name (pyStr pn) else true)
    && (if truthy tn then likeSub p.team (pyStr tn) else true)
  let results :=
    execute_query db
      ((List.insertionSort (fun a b => piLeB db a b = true) filtered).map
        (encodePlayerInfoRow db))
  Json.obj [("players", .arr results), ("total_players", .int results.length)]

/-! ### handle_get_match_details

The LEFT JOINs with the innings table on (match_id, innings_number) and the
officials count are modelled under the primary-key discipline of the
external store: first-match lookup for each innings number, plain count for
officials. -/

def mdPred (args : Arguments) (m : MatchRow) : Bool :=
  (if truthy (dictGet args "match_id") then sqlEqStr m.id (dictGet args "match_id") else true)
  && (if truthy (dictGet args "season") then sqlEqInt m.season (dictGet args "season") else true)
  && (if truthy (dictGet args "team_name") then
        (likeSub m.team1 (pyStr (dictGet args "team_name"))
         || likeSub m.team2 (pyStr (dictGet args "team_name"))) else true)
  && (if truthy (dictGet args "venue") then likeSub m.venue (pyStr (dictGet args "venue")) else true)

def matchFields (m : MatchRow) : List (String × Json) :=
  [("id", .str m.id), ("date", .str m.date), ("city", .str m.city),
   ("venue", .str m.venue), ("team1", .str m.team1), ("team2", .str m.team2),
   ("toss_winner", .str m.toss_winner), ("toss_decision", .str m.toss_decision),
   ("winner", .str m.winner), ("result", .str m.result),
   ("margin", .str m.margin), ("season", .int m.season)]

def encodeMatchDetailsRow (db : DB) (m : MatchRow) : Json :=
  let i1 := (db.store.innings.filter fun i => i.match_id == m.id && i.innings_number == 1).head?
  let i2 := (db.store.innings.filter fun i => i.match_id == m.id && i.innings_number == 2).head?
  .obj (matchFields m ++
    [("team1_runs", jsonOfOptInt (i1.map InningsRow.total_runs)),
     ("team1_wickets", jsonOfOptInt (i1.map InningsRow.total_wickets)),
     ("team1_overs", jsonOfOptRat (i1.map InningsRow.total_overs)),
     ("team2_runs", jsonOfOptInt (i2.map InningsRow.total_runs)),
     ("team2_wickets", jsonOfOptInt (i2.map InningsRow.total_wickets)),
     ("team2_overs", jsonOfOptRat (i2.map InningsRow.total_overs)),
     ("total_officials", .int ((db.store.officials.filter fun o => o.match_id == m.id).length))])

/-- IPLMCPServer.handle_get_match_details (ORDER BY m.date DESC). -/
def handle_get_match_details (db : DB) (args : Arguments) : Json :=
  let results :=
    execute_query db
      ((List.insertionSort (fun a b => decide (b.date ≤ a.date) = true)
        (db.store.matchesTbl.filter (mdPred args))).map (encodeMatchDetailsRow db))
  Json.obj [("matches", .arr results), ("total_matches", .int results.length)]

/-! ### handle_get_match_officials -/

def moPred (args : Arguments) (o : OfficialRow) : Bool :=
  (if truthy (dictGet args "match_id") then sqlEqStr o.match_id (dictGet args "match_id") else true)
  && (if truthy (dictGet args "official_name") then
        likeSub o.name (pyStr (dictGet args "official_name")) else true)

/-- LEFT JOIN matches m ON m.id = o.match_id, under the matches primary
key, as a first-match lookup. -/
def officialMatch (db : DB) (o : OfficialRow) : Option MatchRow :=
  (db.store.matchesTbl.filter fun m => m.id == o.match_id).head?

/-- ORDER BY m.date DESC, o.role, o.name; a NULL date (no joined match)
sorts last under DESC. -/
def moLeB (db : DB) (a b : OfficialRow) : Bool :=
  let rest := decide (a.role < b.role)
    || (a.role == b.role && decide (a.name ≤ b.name))
  match (officialMatch db a).map MatchRow.date, (officialMatch db b).map MatchRow.date with
  | some x, some y => decide (x > y) || (x == y && rest)
  | some _, none => true
  | none, some _ => false
  | none, none => rest

def encodeOfficialRow (db : DB) (o : OfficialRow) : Json :=
  let m := officialMatch db o
  .obj [("id", .int o.id), ("match_id", .str o.match_id),
        ("name", .str o.name), ("role", .str o.role),
        ("date", jsonOfOptStr (m.map MatchRow.date)),
        ("venue", jsonOfOptStr (m.map MatchRow.venue)),
        ("team1", jsonOfOptStr (m.map MatchRow.team1)),
        ("team2", jsonOfOptStr (m.map MatchRow.team2))]

/-- IPLMCPServer.handle_get_match_officials. -/
def handle_get_match_officials (db : DB) (args : Arguments) : Json :=
  let results :=
    execute_query db
      ((List.insertionSort (fun a b => moLeB db a b = true)
        (db.store.officials.filter (moPred args))).map (encodeOfficialRow db))
  Json.obj [("officials", .arr results), ("total_officials", .int results.length)]

/-! ### handle_get_venue_info

GROUP BY m.venue over the filtered matches; groups are the distinct venue
values, ordered by total match count descending with venue name ascending
as tie-break (ORDER BY total_matches DESC, m.venue). -/

def viPred (args : Arguments) (m : MatchRow) : Bool :=
  (if truthy (dictGet args "venue_name") then
    likeSub m.venue (pyStr (dictGet args "venue_name")) else true)
  && (if truthy (dictGet args "city") then
    likeSub m.venue (pyStr (dictGet args "city")) else true)

/-- One output row of the venue aggregate, for venue v over the filtered
match rows g belonging to that venue. -/
def encodeVenueRow (g : List MatchRow) (v : String) : Json :=
  .obj [("venue", .str v), ("total_matches", .int g.length),
        ("team1_wins", .int (g.countP fun m => m.winner == m.team1)),
        ("team2_wins", .int (g.countP fun m => m.winner == m.team2)),
        ("teams_won", .str (String.intercalate "," ((g.map MatchRow.winner).dedup))),
        ("first_match_date", jsonOfOptStr
          (match g.map MatchRow.date with
           | [] => none
           | x :: xs => some (xs.foldl min x))),
        ("last_match_date", jsonOfOptStr
          (match g.map MatchRow.date with
           | [] => none
           | x :: xs => some (xs.foldl max x)))]

/-- IPLMCPServer.handle_get_venue_info. -/
def handle_get_venue_info (db : DB) (args : Arguments) : Json :=
  let filtered := db.store.matchesTbl.filter (viPred args)
  let venueLe : String → String → Bool := fun v w =>
    let cv := (filtered.filter fun m => m.venue == v).length
    let cw := (filtered.filter fun m => m.venue == w).length
    decide (cv > cw) || (cv == cw && decide (v ≤ w))
  let venues := List.insertionSort (fun v w => venueLe v w = true)
    ((filtered.map MatchRow.venue).dedup)
  let results :=
    execute_query db
      (venues.map fun v => encodeVenueRow (filtered.filter fun m => m.venue == v) v)
  Json.obj [("venues", .arr results), ("total_venues", .int results.length)]

/-! ### Tool registry (IPLMCPServer.get_tools) -/

structure ToolDef where
  name : String
  description : String
  properties : List (String × Json)
  required : Option (List String)

/-- The seven tool descriptors, with their inputSchema property sets,
required lists and closed-set flag, exactly as declared by get_tools. -/
def toolDefs : List ToolDef :=
  [{ name := "get_team_info",
     description := "Get information about IPL teams",
     properties := [("team_name", .obj [("type", .str "string"),
       ("description", .str "Name or short name of the team")])],
     required := none },
   { name := "get_player_info",
     description := "Get player information and team details",
     properties := [("player_name", .obj [("type", .str "string"),
       ("description", .str "Name of the player")]),
       ("team_name", .obj [("type", .str "string"),
         ("description", .str "Filter by team name")])],
     required := none },
   { name := "get_match_details",
     description := "Get detailed match information including scores and outcome",
     properties := [("match_id", .obj [("type", .str "string"),
       ("description", .str "Specific match ID")]),
       ("season", .obj [("type", .str "integer"),
         ("description", .str "IPL season year")]),
       ("team_name", .obj [("type", .str "string"),
         ("description", .str "Filter by team name")]),
       ("venue", .obj [("type", .str "string"),
         ("description", .str "Filter by venue")])],
     required := none },
   { name := "get_ball_by_ball",
     description := "Get ball-by-ball commentary and deliveries for a match",
     properties := [("match_id", .obj [("type", .str "string"),
       ("description", .str "Match ID")]),
       ("innings", .obj [("type", .str "integer"),
         ("description", .str "Innings number (1 or 2)")]),
       ("over_start", .obj [("type", .str "integer"),
         ("description", .str "Starting over number")]),
       ("over_end", .obj [("type", .str "integer"),
         ("description", .str "Ending over number")])],
     required := some ["match_id"] },
   { name := "get_player_performance",
     description := "Get player performance in specific match or overall",
     properties := [("player_name", .obj [("type", .str "string"),
       ("description", .str "Player name")]),
       ("match_id", .obj [("type", .str "string"),
         ("description", .str "Specific match ID")]),
       ("stat_type", .obj [("type", .str "string"),
         ("description", .str "Type of stats"),
         ("enum", .arr [.str "batting", .str "bowling", .str "fielding", .str "all"]),
         ("default", .str "all")])],
     required := some ["player_name"] },
   { name := "get_match_officials",
     description := "Get match officials information",
     properties := [("match_id", .obj [("type", .str "string"),
       ("description", .str "Match ID")]),
       ("official_name", .obj [("type", .str "string"),
         ("description", .str "Official name")])],
     required := none },
   { name := "get_venue_info",
     description := "Get information about cricket venues",
     properties := [("venue_name", .obj [("type", .str "string"),
       ("description", .str "Name of the venue")]),
       ("city", .obj [("type", .str "string"),
         ("description", .str "Filter by city")])],
     required := none }]

def encodeToolDef (t : ToolDef) : Json :=
  .obj [("name", .str t.name), ("description", .str t.description),
        ("inputSchema", .obj
          ([("type", .str "object"), ("properties", .obj t.properties)]
            ++ (match t.required with
                | some r => [("required", .arr (r.map Json.str))]
                | none => [])
            ++ [("additionalProperties", .bool false)]))]

/-- IPLMCPServer.get_tools, serialized. -/
def get_tools : Json := .arr (toolDefs.map encodeToolDef)

/-- The declared property-name set of a named tool (empty for unknown
names). -/
def toolProps (n : String) : List String :=
  match toolDefs.find? fun t => t.name == n with
  | some t => t.properties.map Prod.fst
  | none => []

/-! ### Request dispatcher (IPLMCPServer.handle_request) -/

/-- A decoded request: method, id, and the name and arguments extracted
from params (missing params yields name None and an empty argument bag, as
in the Python .get defaults).  Ids are arbitrary JSON, echoed verbatim;
None stands for an absent id, serialized as null. -/
structure Request where
  method : Option String
  id : Option Json
  paramsName : Option String
  arguments : Arguments

/-- A response envelope: success carries the result, failure carries code
and message; both echo the request id.  The constant jsonrpc field of the
Python dicts is elided. -/
inductive Response where
  | success : Option Json → Json → Response
  | failure : Option Json → Int → String → Response

/-- The id-independent part of a response. -/
inductive ResponsePayload where
  | result : Json → ResponsePayload
  | error : Int → String → ResponsePayload

def Response.payload : Response → ResponsePayload
  | .success _ r => .result r
  | .failure _ c m => .error c m

def Response.isSuccess : Response → Bool
  | .success _ _ => true
  | .failure _ _ _ => false

/-- The tools/call success wrapper: a single text content block.  The text
field of the Python envelope holds json.dumps(result, indent=2); that
serialization is injective and deterministic, so the structured value is
kept in place of its string rendering. -/
def wrapResult (r : Json) : Json :=
  Json.obj [("content", .arr [.obj [("type", .str "text"), ("text", r)]])]

/-- A handler as the dispatcher sees it: it may raise (error carries the
str of the exception).  The seven concrete handlers are total on the
modelled input space and always return ok. -/
def ToolHandler := DB → Arguments → Except String Json

/-- The handlers dict of the tools/call branch, in source order. -/
def toolHandlers : List (String × ToolHandler) :=
  [("get_team_info", fun db args => .ok (handle_get_team_info db args)),
   ("get_player_info", fun db args => .ok (handle_get_player_info db args)),
   ("get_match_details", fun db args => .ok (handle_get_match_details db args)),
   ("get_ball_by_ball", fun db args => .ok (handle_get_ball_by_ball db args)),
   ("get_player_performance", fun db args => .ok (handle_get_player_performance db args)),
   ("get_match_officials", fun db args => .ok (handle_get_match_officials db args)),
   ("get_venue_info", fun db args => .ok (handle_get_venue_info db args))]

def registeredToolNames : List String := toolHandlers.map Prod.fst

/-- Python str of an optional string (None prints as None). -/
def optNameStr : Option String → String
  | some s => s
  | none => "None"

/-- The tools/call branch of handle_request: resolve the name in the
handlers dict; unknown names give -32601; a raising handler gives -32603
with the message of the exception; a returning handler gives a success
envelope with the wrapped result. -/
def callTool (table : List (String × ToolHandler)) (db : DB) (id : Option Json)
    (name : Option String) (args : Arguments) : Response :=
  match name with
  | some n =>
    match List.lookup n table with
    | some h =>
      match h db args with
      | .ok result => .success id (wrapResult result)
      | .error e => .failure id (-32603) ("Internal error: " ++ e)
    | none => .failure id (-32601) ("Unknown tool: " ++ n)
  | none => .failure id (-32601) ("Unknown tool: None")

def serverInfoJson : Json :=
  .obj [("name", .str "ipl-mcp-server"), ("version", .str "1.0.0"),
        ("description", .str "IPL Cricket Statistics MCP Server")]

def initResult : Json :=
  .obj [("protocolVersion", .str "2024-11-05"),
        ("capabilities", .obj [("tools", .obj []), ("resources", .obj []),
          ("prompts", .obj [])]),
        ("serverInfo", serverInfoJson)]

/-- IPLMCPServer.handle_request.  Non-string method values take the
unknown-method branch exactly as a string would never match them in
Python; they are collapsed into None here. -/
def handle_request (db : DB) (req : Request) : Response :=
  if req.method = some "initialize" then
    .success req.id initResult
  else if req.method = some "tools/list" then
    .success req.id (Json.obj [("tools", get_tools)])
  else if req.method = some "tools/call" then
    callTool toolHandlers db req.id req.paramsName req.arguments
  else if req.method = some "resources/list" then
    .success req.id (Json.obj [("resources", .arr [])])
  else if req.method = some "prompts/list" then
    .success req.id (Json.obj [("prompts", .arr [])])
  else
    .failure req.id (-32601) ("Unknown method: " ++ optNameStr req.method)

/-! ### The request loop (main) -/

/-- One line of standard input: empty (the loop breaks), undecodable JSON
(yields a parse-error envelope and continues), or a decoded request.  End
of the list is end of input. -/
inductive InputLine where
  | emptyLine : InputLine
  | malformed : InputLine
  | request : Request → InputLine

def parseErrorResponse : Response := .failure none (-32700) "Parse error"

/-- The while-loop of main: one response line per processed request;
processing continues after any failure envelope.  The outer catch-all
except branch of main is unreachable here because handle_request is
total. -/
def main_loop (db : DB) : List InputLine → List Response
  | [] => []
  | .emptyLine :: _ => []
  | .malformed :: rest => parseErrorResponse :: main_loop db rest
  | .request r :: rest => handle_request db r :: main_loop db rest

/-! ### Concrete demonstration data for the closed theorems -/

def demoMatch : MatchRow :=
  { id := "m1", date := "2008-04-18", city := "Bangalore",
    venue := "M Chinnaswamy Stadium", team1 := "Kolkata Knight Riders",
    team2 := "Royal Challengers Bangalore",
    toss_winner := "Royal Challengers Bangalore", toss_decision := "field",
    winner := "Kolkata Knight Riders", result := "normal",
    margin := "140 runs", season := 2008 }

def demoDeliveries : List Delivery :=
  [{ id := 3, match_id := "m1", innings := 2, over := 0, ball := 1,
     batter := "R Dravid", non_striker := "W Jaffer", bowler := "AB Dinda",
     runs_batter := 0, runs_extras := 0, runs_total := 0,
     wicket_type := some "bowled", player_dismissed := some "R Dravid" },
   { id := 1, match_id := "m1", innings := 1, over := 0, ball := 1,
     batter := "SC Ganguly", non_striker := "BB McCullum", bowler := "P Kumar",
     runs_batter := 0, runs_extras := 1, runs_total := 1,
     wicket_type := none, player_dismissed := none },
   { id := 2, match_id := "m1", innings := 1, over := 1, ball := 1,
     batter := "BB McCullum", non_striker := "SC Ganguly", bowler := "Z Khan",
     runs_batter := 4, runs_extras := 0, runs_total := 4,
     wicket_type := none, player_dismissed := none }]

def demoStore : Store :=
  { matchesTbl := [demoMatch], deliveries := demoDeliveries,
    teams := [], players := [], innings := [], officials := [] }

def demoDB : DB := { store := demoStore, fault := false }

/-- The same store with a raised sqlite3.Error on every query execution. -/
def faultyDB : DB := { store := demoStore, fault := true }

def emptyStore : Store :=
  { matchesTbl := [], deliveries := [], teams := [], players := [],
    innings := [], officials := [] }

def emptyDB : DB := { store := emptyStore, fault := false }

/-- The ordering key (innings, over, ball) of a delivery. -/
def deliveryKey (d : Delivery) : Int × Int × Int := (d.innings, d.over, d.ball)

/-- The ordering key of a returned ball-by-ball row. -/
def bbbKey (r : BBRow) : Int × Int × Int := deliveryKey r.delivery

/-- The structured result a tools/call success envelope carries inside its
single text content block (None for failure envelopes). -/
def callResultJson : Response → Option Json
  | .success _ res =>
    (jsonGet res "content").bind fun c => (jsonHead c).bind fun b => jsonGet b "text"
  | .failure _ _ _ => none

/-! ### Helper lemmas -/

theorem lookup_eq_none_of_not_mem {α β : Type} [BEq α] [LawfulBEq α]
    (k : α) (l : List (α × β)) (h : k ∉ l.map Prod.fst) : List.lookup k l = none := by
  induction l with
  | nil => rfl
  | cons p t ih =>
    cases p with
    | mk a b =>
      rw [List.map_cons, List.mem_cons] at h
      push_neg at h
      have hb : (k == a) = false := beq_eq_false_iff_ne.mpr h.1
      simp only [List.lookup, hb]
      exact ih h.2

theorem length_filter_le_one {α κ : Type} [DecidableEq κ] (k : α → κ) (x : κ)
    (l : List α) (h : (l.map k).Nodup) :
    (l.filter fun a => k a == x).length ≤ 1 := by
  induction l with
  | nil => simp
  | cons a t ih =>
    rw [List.map_cons, List.nodup_cons] at h
    by_cases ha : (k a == x) = true
    · have hx : k a = x := by simpa using ha
      have ht : (t.filter fun b => k b == x) = [] := by
        rw [List.filter_eq_nil_iff]
        intro b hb
        simp only [beq_iff_eq]
        intro hbx
        exact h.1 (by rw [List.mem_map]; exact ⟨b, hb, by rw [hbx, hx]⟩)
      rw [List.filter_cons, if_pos ha, ht]
      simp
    · rw [List.filter_cons, if_neg ha]
      exact ih h.2

theorem nodup_map_flatMap {α β κ : Type} [DecidableEq κ] (ka : α → κ) (kb : β → κ)
    (f : α → List β) (l : List α)
    (hf1 : ∀ a, (f a).length ≤ 1)
    (hf2 : ∀ a b, b ∈ f a → kb b = ka a)
    (h : (l.map ka).Nodup) : ((l.flatMap f).map kb).Nodup := by
  induction l with
  | nil => simp
  | cons a t ih =>
    rw [List.map_cons, List.nodup_cons] at h
    rw [List.flatMap_cons, List.map_append, List.nodup_append]
    refine ⟨?_, ih h.2, ?_⟩
    · cases hfa : f a with
      | nil => simp
      | cons b bs =>
        cases bs with
        | nil => simp
        | cons b' bs' =>
          exfalso
          have := hf1 a
          rw [hfa] at this
          simp at this
    · intro x hx1 hx2
      rw [List.mem_map] at hx1
      obtain ⟨b, hb, rfl⟩ := hx1
      rw [List.mem_map] at hx2
      obtain ⟨b', hb', he⟩ := hx2
      rw [List.mem_flatMap] at hb'
      obtain ⟨a', ha', hba⟩ := hb'
      apply h.1
      rw [List.mem_map]
      refine ⟨a', ha', ?_⟩
      rw [← hf2 a' b' hba, he, hf2 a b hb]

theorem bbbLt_of_le_ne {a b : BBRow} (hle : bbbLe a b) (hne : bbbKey a ≠ bbbKey b) :
    bbbLt a b := by
  unfold bbbLe at hle
  unfold bbbLt
  unfold bbbKey deliveryKey at hne
  rw [Ne, Prod.mk.injEq, Prod.mk.injEq] at hne
  omega

theorem pairwise_bbbLt (l : List BBRow) (hs : List.Pairwise bbbLe l)
    (hn : (l.map bbbKey).Nodup) : List.Pairwise bbbLt l := by
  have hn' : List.Pairwise (fun a b => bbbKey a ≠ bbbKey b) l := by
    have : List.Pairwise (fun a b : Int × Int × Int => a ≠ b) (l.map bbbKey) := hn
    rw [List.pairwise_map] at this
    exact this
  exact (hs.and hn').imp fun h => bbbLt_of_le_ne h.1 h.2

theorem callTool_payload_id (table : List (String × ToolHandler)) (db : DB)
    (n : Option String) (args : Arguments) (i1 i2 : Option Json) :
    (callTool table db i1 n args).payload = (callTool table db i2 n args).payload := by
  unfold callTool
  cases n with
  | none => rfl
  | some s =>
    dsimp only
    cases hl : List.lookup s table with
    | none => rfl
    | some h =>
      dsimp only
      cases hh : h db args <;> rfl

/-! ### Claims -/

/-- C1.  The claim states that a tools/call whose arguments contain a key
not declared in the named tool's inputSchema property set is rejected with
-32602 before the handler runs.  The dispatcher performs no argument
validation: at the concrete input below, the key "commentary" is not among
the declared properties of get_ball_by_ball, yet the request yields a
success envelope whose payload is the invoked handler's full result (one
delivery found for the match).  This contradicts the closed argument set
the served schemas themselves declare (additionalProperties false). -/
theorem C1_unknown_key_not_rejected :
    ("commentary" ∉ toolProps "get_ball_by_ball")
    ∧ (handle_request demoDB
        { method := some "tools/call", id := some (Json.int 1),
          paramsName := some "get_ball_by_ball",
          arguments := [("match_id", Scalar.s "m1"), ("commentary", Scalar.s "on")] }).isSuccess
        = true
    ∧ ((callResultJson (handle_request demoDB
        { method := some "tools/call", id := some (Json.int 1),
          paramsName := some "get_ball_by_ball",
          arguments := [("match_id", Scalar.s "m1"), ("commentary", Scalar.s "on")] })).bind
        fun j => jsonGet j "total_deliveries") = some (Json.int 3) :=
  ⟨by decide, rfl, rfl⟩

/-- C2.  The claim states that a tools/call omitting a required argument
(match_id of get_ball_by_ball) is rejected with -32602 naming the missing
key, without invoking the handler.  The dispatcher never checks the
required list: with an empty argument bag the handler is invoked, its
queries bind a NULL match_id that selects no row, and the request returns
a success envelope with a null match_info and zero deliveries. -/
theorem C2_required_not_enforced :
    handle_request demoDB
      { method := some "tools/call", id := some (Json.int 2),
        paramsName := some "get_ball_by_ball", arguments := [] }
      = Response.success (some (Json.int 2)) (wrapResult (Json.obj
          [("match_info", Json.null), ("deliveries", Json.arr []),
           ("total_deliveries", Json.int 0), ("overs_covered", Json.int 0)])) := rfl

/-- C3 counterexample.  The claim states that a store fault during query
execution surfaces as a -32603 failure envelope.  At this concrete input
the store raises on every query, yet the response is a success envelope
with an empty result set. -/
theorem C3_counterexample :
    handle_request faultyDB
      { method := some "tools/call", id := some (Json.int 3),
        paramsName := some "get_team_info", arguments := [] }
      = Response.success (some (Json.int 3)) (wrapResult (Json.obj
          [("teams", Json.arr []), ("total_teams", Json.int 0)])) := rfl

/-- C3 amended.  Store-level faults are caught inside execute_query and
yield the empty row set; a tools/call naming any registered tool during
whose execution the store faults therefore still returns a success
envelope built over empty query results, never a -32603 failure. -/
theorem C3_store_fault_swallowed :
    (∀ (store : Store) (id : Option Json) (args : Arguments) (n : String),
      n ∈ registeredToolNames →
      (handle_request { store := store, fault := true }
        { method := some "tools/call", id := id, paramsName := some n,
          arguments := args }).isSuccess = true)
    ∧ (∀ (store : Store) (args : Arguments),
      handle_get_ball_by_ball { store := store, fault := true } args
        = Json.obj [("match_info", Json.null), ("deliveries", Json.arr []),
            ("total_deliveries", Json.int 0), ("overs_covered", Json.int 0)]) := by
  constructor
  · intro store id args n hn
    fin_cases hn <;> rfl
  · intro store args
    rfl

theorem C3_witness :
    ("get_venue_info" ∈ registeredToolNames)
    ∧ (handle_request { store := demoStore, fault := true }
        { method := some "tools/call", id := some (Json.int 9),
          paramsName := some "get_venue_info", arguments := [] }).isSuccess = true :=
  ⟨by decide,
   C3_store_fault_swallowed.1 demoStore (some (Json.int 9)) [] "get_venue_info" (by decide)⟩

/-- C4.  When the filtered delivery set of a get_player_performance call is
empty, the SUM over it is NULL and the SQL division yields NULL, so the
derived strike_rate (respectively economy_rate) field of the aggregate row
is null; the request itself still returns a success envelope, and no
division fault can occur. -/
theorem C4_zero_denominator_null (db : DB) (args : Arguments) (id : Option Json)
    (hf : db.fault = false) :
    (db.store.deliveries.filter (battingPred args) = [] →
      jsonGet (battingBlock db args) "strike_rate" = some Json.null)
    ∧ (db.store.deliveries.filter (bowlingPred args) = [] →
      jsonGet (bowlingBlock db args) "economy_rate" = some Json.null)
    ∧ (handle_request db
        { method := some "tools/call", id := id,
          paramsName := some "get_player_performance", arguments := args }).isSuccess
        = true := by
  refine ⟨?_, ?_, rfl⟩
  · intro h
    unfold battingBlock
    rw [h]
    simp [execute_query, hf]
    rfl
  · intro h
    unfold bowlingBlock
    rw [h]
    simp [execute_query, hf]
    rfl

theorem C4_witness :
    jsonGet (battingBlock emptyDB [("player_name", Scalar.s "Kohli")]) "strike_rate"
      = some Json.null
    ∧ jsonGet (bowlingBlock emptyDB [("player_name", Scalar.s "Kohli")]) "economy_rate"
      = some Json.null :=
  ⟨(C4_zero_denominator_null emptyDB [("player_name", Scalar.s "Kohli")] none rfl).1 rfl,
   (C4_zero_denominator_null emptyDB [("player_name", Scalar.s "Kohli")] none rfl).2.1 rfl⟩

/-- C5.  A handler that raises is caught at the dispatcher boundary: when
the resolved handler of a tools/call errors, the response is a failure
envelope with code -32603 whose message carries the description of the
failure, with the request id preserved.  handle_request dispatches
tools/call through this very callTool with the concrete handler table, and
the request loop emits one response per request line and keeps reading
afterwards, whatever the response was. -/
theorem C5_handler_failure_caught :
    (∀ (table : List (String × ToolHandler)) (db : DB) (id : Option Json)
        (n : String) (args : Arguments) (h : ToolHandler) (msg : String),
      List.lookup n table = some h → h db args = .error msg →
      callTool table db id (some n) args
        = Response.failure id (-32603) ("Internal error: " ++ msg))
    ∧ (∀ (db : DB) (id : Option Json) (n : Option String) (args : Arguments),
      handle_request db
          { method := some "tools/call", id := id, paramsName := n, arguments := args }
        = callTool toolHandlers db id n args)
    ∧ (∀ (db : DB) (r : Request) (rest : List InputLine),
      main_loop db (InputLine.request r :: rest)
        = handle_request db r :: main_loop db rest) := by
  refine ⟨?_, fun db id n args => rfl, fun db r rest => rfl⟩
  intro table db id n args h msg h1 h2
  simp only [callTool, h1, h2]

theorem C5_witness :
    callTool [("boom_tool", fun _ _ => Except.error "boom")] demoDB
        (some (Json.int 6)) (some "boom_tool") []
      = Response.failure (some (Json.int 6)) (-32603) "Internal error: boom" :=
  C5_handler_failure_caught.1 [("boom_tool", fun _ _ => Except.error "boom")] demoDB
    (some (Json.int 6)) "boom_tool" [] (fun _ _ => Except.error "boom") "boom" rfl rfl

/-- C6.  A tools/call whose params name is not one of the seven registered
tool names (or is absent, printing as None) resolves to no handler and
yields a failure envelope with code -32601 whose message names the unknown
tool, with the request id preserved; no handler runs. -/
theorem C6_unknown_tool (db : DB) (id : Option Json) (n : Option String)
    (args : Arguments) (h : ∀ s, n = some s → s ∉ registeredToolNames) :
    handle_request db
        { method := some "tools/call", id := id, paramsName := n, arguments := args }
      = Response.failure id (-32601) ("Unknown tool: " ++ optNameStr n) := by
  have hb : handle_request db
      { method := some "tools/call", id := id, paramsName := n, arguments := args }
      = callTool toolHandlers db id n args := rfl
  rw [hb]
  cases n with
  | none => rfl
  | some s =>
    have hl : List.lookup s toolHandlers = none :=
      lookup_eq_none_of_not_mem s toolHandlers (h s rfl)
    simp only [callTool, hl]
    rfl

theorem C6_witness :
    handle_request demoDB
        { method := some "tools/call", id := some (Json.int 4),
          paramsName := some "get_scores", arguments := [] }
      = Response.failure (some (Json.int 4)) (-32601) "Unknown tool: get_scores" :=
  C6_unknown_tool demoDB (some (Json.int 4)) (some "get_scores") []
    (by intro s hs; injection hs with he; subst he; decide)

/-- C7.  The performance mapping of get_player_performance contains a
batting block exactly when the retrieved stat_type is batting or all, and a
bowling block exactly when it is bowling or all; the retrieved stat_type is
the argument value with default all when the key is absent; stat_type
fielding yields an empty performance mapping; and the tools/call always
returns a success envelope (fielding is not a failure). -/
theorem C7_stat_type_gating (db : DB) (args : Arguments) (id : Option Json) :
    ((List.lookup "batting" (performanceBlocks db args)).isSome
      = (dictGetD args "stat_type" (Scalar.s "all") == Scalar.s "batting"
         || dictGetD args "stat_type" (Scalar.s "all") == Scalar.s "all"))
    ∧ ((List.lookup "bowling" (performanceBlocks db args)).isSome
      = (dictGetD args "stat_type" (Scalar.s "all") == Scalar.s "bowling"
         || dictGetD args "stat_type" (Scalar.s "all") == Scalar.s "all"))
    ∧ (dictGetD args "stat_type" (Scalar.s "all") = Scalar.s "fielding" →
        performanceBlocks db args = [])
    ∧ (List.lookup "stat_type" args = none →
        dictGetD args "stat_type" (Scalar.s "all") = Scalar.s "all")
    ∧ (jsonGet (handle_get_player_performance db args) "performance"
        = some (Json.obj (performanceBlocks db args)))
    ∧ ((handle_request db
        { method := some "tools/call", id := id,
          paramsName := some "get_player_performance", arguments := args }).isSuccess
        = true) := by
  refine ⟨?_, ?_, ?_, ?_, rfl, rfl⟩
  · unfold performanceBlocks
    cases hb1 : (dictGetD args "stat_type" (Scalar.s "all") == Scalar.s "batting"
        || dictGetD args "stat_type" (Scalar.s "all") == Scalar.s "all") <;>
      cases hb2 : (dictGetD args "stat_type" (Scalar.s "all") == Scalar.s "bowling"
        || dictGetD args "stat_type" (Scalar.s "all") == Scalar.s "all") <;>
      simp [hb1, hb2, List.lookup]
  · unfold performanceBlocks
    cases hb1 : (dictGetD args "stat_type" (Scalar.s "all") == Scalar.s "batting"
        || dictGetD args "stat_type" (Scalar.s "all") == Scalar.s "all") <;>
      cases hb2 : (dictGetD args "stat_type" (Scalar.s "all") == Scalar.s "bowling"
        || dictGetD args "stat_type" (Scalar.s "all") == Scalar.s "all") <;>
      simp [hb1, hb2, List.lookup]
  · intro hst
    unfold performanceBlocks
    rw [hst]
    rfl
  · intro hst
    unfold dictGetD
    rw [hst]

theorem C7_witness :
    performanceBlocks demoDB
      [("player_name", Scalar.s "Kohli"), ("stat_type", Scalar.s "fielding")] = [] :=
  (C7_stat_type_gating demoDB
    [("player_name", Scalar.s "Kohli"), ("stat_type", Scalar.s "fielding")] none).2.2.1 rfl

/-- C8.  For a get_ball_by_ball call with a match_id and no other filter,
the returned delivery sequence is strictly increasing in the lexicographic
key (innings, over, ball), and the overs_covered field of the result is
the number of distinct (innings, over) pairs among the returned rows.  The
two hypotheses are the primary-key discipline of the store: match ids are
unique, and the ingestion assigns distinct (innings, over, ball) positions
to the deliveries of one match. -/
theorem C8_ball_by_ball_order (db : DB) (mid : String)
    (h1 : (db.store.matchesTbl.map MatchRow.id).Nodup)
    (h2 : ((db.store.deliveries.filter fun d => d.match_id == mid).map deliveryKey).Nodup) :
    List.Pairwise bbbLt (ballByBallRows db [("match_id", Scalar.s mid)])
    ∧ jsonGet (handle_get_ball_by_ball db [("match_id", Scalar.s mid)]) "deliveries"
        = some (Json.arr ((ballByBallRows db [("match_id", Scalar.s mid)]).map encodeBBRow))
    ∧ jsonGet (handle_get_ball_by_ball db [("match_id", Scalar.s mid)]) "overs_covered"
        = some (Json.int
            (((ballByBallRows db [("match_id", Scalar.s mid)]).map overKey).toFinset.card)) := by
  have hfilter : db.store.deliveries.filter
      (bbbPred (dictGet [("match_id", Scalar.s mid)] "match_id")
        (dictGet [("match_id", Scalar.s mid)] "innings")
        (dictGet [("match_id", Scalar.s mid)] "over_start")
        (dictGet [("match_id", Scalar.s mid)] "over_end"))
      = db.store.deliveries.filter fun d => d.match_id == mid := by
    apply List.filter_congr
    intro d _
    show bbbPred (Scalar.s mid) Scalar.null Scalar.null Scalar.null d = (d.match_id == mid)
    simp [bbbPred, truthy, sqlEqStr]
  have hjoin : bbbJoin db
      (bbbPred (dictGet [("match_id", Scalar.s mid)] "match_id")
        (dictGet [("match_id", Scalar.s mid)] "innings")
        (dictGet [("match_id", Scalar.s mid)] "over_start")
        (dictGet [("match_id", Scalar.s mid)] "over_end"))
      = (db.store.deliveries.filter fun d => d.match_id == mid).flatMap fun d =>
          (db.store.matchesTbl.filter fun m => m.id == d.match_id).map fun m =>
            { delivery := d, m_team1 := m.team1, m_team2 := m.team2 } := by
    unfold bbbJoin
    rw [hfilter]
  have hjoinkeys : (((db.store.deliveries.filter fun d => d.match_id == mid).flatMap fun d =>
      (db.store.matchesTbl.filter fun m => m.id == d.match_id).map fun m =>
        ({ delivery := d, m_team1 := m.team1, m_team2 := m.team2 } : BBRow)).map bbbKey).Nodup := by
    apply nodup_map_flatMap deliveryKey bbbKey
    · intro d
      rw [List.length_map]
      exact length_filter_le_one MatchRow.id d.match_id db.store.matchesTbl h1
    · intro d r hr
      rw [List.mem_map] at hr
      obtain ⟨m, hm, rfl⟩ := hr
      rfl
    · exact h2
  have hsorted := List.sorted_insertionSort bbbLe
    ((db.store.deliveries.filter fun d => d.match_id == mid).flatMap fun d =>
      (db.store.matchesTbl.filter fun m => m.id == d.match_id).map fun m =>
        ({ delivery := d, m_team1 := m.team1, m_team2 := m.team2 } : BBRow))
  have hperm := List.perm_insertionSort bbbLe
    ((db.store.deliveries.filter fun d => d.match_id == mid).flatMap fun d =>
      (db.store.matchesTbl.filter fun m => m.id == d.match_id).map fun m =>
        ({ delivery := d, m_team1 := m.team1, m_team2 := m.team2 } : BBRow))
  have hstrict : List.Pairwise bbbLt (List.insertionSort bbbLe
      ((db.store.deliveries.filter fun d => d.match_id == mid).flatMap fun d =>
        (db.store.matchesTbl.filter fun m => m.id == d.match_id).map fun m =>
          ({ delivery := d, m_team1 := m.team1, m_team2 := m.team2 } : BBRow))) :=
    pairwise_bbbLt _ hsorted (((hperm.map bbbKey).symm).nodup hjoinkeys)
  have hrows : ballByBallRows db [("match_id", Scalar.s mid)]
      = execute_query db (List.insertionSort bbbLe
          ((db.store.deliveries.filter fun d => d.match_id == mid).flatMap fun d =>
            (db.store.matchesTbl.filter fun m => m.id == d.match_id).map fun m =>
              ({ delivery := d, m_team1 := m.team1, m_team2 := m.team2 } : BBRow))) := by
    unfold ballByBallRows
    rw [hjoin]
  refine ⟨?_, rfl, ?_⟩
  · rw [hrows]
    unfold execute_query
    cases hf : db.fault with
    | true => simp
    | false => simpa using hstrict
  · rw [List.card_toFinset]
    rfl

theorem C8_witness :
    ((demoDB.store.matchesTbl.map MatchRow.id).Nodup
      ∧ ((demoDB.store.deliveries.filter fun d => d.match_id == "m1").map deliveryKey).Nodup)
    ∧ List.Pairwise bbbLt (ballByBallRows demoDB [("match_id", Scalar.s "m1")])
    ∧ jsonGet (handle_get_ball_by_ball demoDB [("match_id", Scalar.s "m1")]) "overs_covered"
        = some (Json.int
            (((ballByBallRows demoDB [("match_id", Scalar.s "m1")]).map overKey).toFinset.card)) :=
  ⟨⟨by decide, by decide⟩,
   (C8_ball_by_ball_order demoDB "m1" (by decide) (by decide)).1,
   (C8_ball_by_ball_order demoDB "m1" (by decide) (by decide)).2.2⟩

/-- C9.  The dispatcher is a pure function of the store and the request,
and the request id flows only into the echoed id field of the envelope:
two requests with the same method, tool name and arguments against the
same store produce the same result or error payload whatever their ids,
so reissuing an identical request yields an identical result payload. -/
theorem C9_id_independent_payload (db : DB) (m : Option String) (i1 i2 : Option Json)
    (n : Option String) (args : Arguments) :
    (handle_request db { method := m, id := i1, paramsName := n, arguments := args }).payload
      = (handle_request db { method := m, id := i2, paramsName := n, arguments := args }).payload := by
  unfold handle_request
  dsimp only
  by_cases h1 : m = some "initialize"
  · rw [if_pos h1, if_pos h1]
    rfl
  · rw [if_neg h1, if_neg h1]
    by_cases h2 : m = some "tools/list"
    · rw [if_pos h2, if_pos h2]
      rfl
    · rw [if_neg h2, if_neg h2]
      by_cases h3 : m = some "tools/call"
      · rw [if_pos h3, if_pos h3]
        exact callTool_payload_id toolHandlers db n args i1 i2
      · rw [if_neg h3, if_neg h3]
        by_cases h4 : m = some "resources/list"
        · rw [if_pos h4, if_pos h4]
          rfl
        · rw [if_neg h4, if_neg h4]
          by_cases h5 : m = some "prompts/list"
          · rw [if_pos h5, if_pos h5]
            rfl
          · rw [if_neg h5, if_neg h5]
            rfl

/-- C10.  In get_ball_by_ball the innings filter is guarded by Python
truthiness while the over range filters are guarded by is-not-None: a call
with innings 0 builds exactly the same result as a call with the innings
key absent, whereas over_start 0 does contribute the predicate over >= 0
to the WHERE conjunction. -/
theorem C10_truthiness_asymmetry (db : DB) (mid os oe inn : Scalar) (d : Delivery) :
    handle_get_ball_by_ball db
        [("match_id", mid), ("innings", Scalar.i 0), ("over_start", os), ("over_end", oe)]
      = handle_get_ball_by_ball db
        [("match_id", mid), ("over_start", os), ("over_end", oe)]
    ∧ bbbPred mid inn (Scalar.i 0) oe d
      = (bbbPred mid inn Scalar.null oe d && decide (d.over ≥ 0)) := by
  constructor
  · have hpred : bbbPred mid (Scalar.i 0) os oe = bbbPred mid Scalar.null os oe := by
      funext d'
      simp [bbbPred, truthy]
    show handle_get_ball_by_ball db
        [("match_id", mid), ("innings", Scalar.i 0), ("over_start", os), ("over_end", oe)]
      = handle_get_ball_by_ball db [("match_id", mid), ("over_start", os), ("over_end", oe)]
    unfold handle_get_ball_by_ball ballByBallRows
    rw [show dictGet [("match_id", mid), ("innings", Scalar.i 0), ("over_start", os),
          ("over_end", oe)] "match_id" = mid from rfl,
        show dictGet [("match_id", mid), ("innings", Scalar.i 0), ("over_start", os),
          ("over_end", oe)] "innings" = Scalar.i 0 from rfl,
        show dictGet [("match_id", mid), ("innings", Scalar.i 0), ("over_start", os),
          ("over_end", oe)] "over_start" = os from rfl,
        show dictGet [("match_id", mid), ("innings", Scalar.i 0), ("over_start", os),
          ("over_end", oe)] "over_end" = oe from rfl,
        show dictGet [("match_id", mid), ("over_start", os), ("over_end", oe)] "match_id"
          = mid from rfl,
        show dictGet [("match_id", mid), ("over_start", os), ("over_end", oe)] "innings"
          = Scalar.null from rfl,
        show dictGet [("match_id", mid), ("over_start", os), ("over_end", oe)] "over_start"
          = os from rfl,
        show dictGet [("match_id", mid), ("over_start", os), ("over_end", oe)] "over_end"
          = oe from rfl,
        hpred]
  · unfold bbbPred
    have h3 : (if Scalar.i 0 ≠ Scalar.null then sqlGeInt d.over (Scalar.i 0) else true)
        = decide (d.over ≥ 0) := by
      rw [if_pos (show Scalar.i 0 ≠ Scalar.null from by decide)]
      rfl
    have h4 : (if Scalar.null ≠ Scalar.null then sqlGeInt d.over Scalar.null else true)
        = true := by simp
    rw [h3, h4]
    cases sqlEqStr d.match_id mid <;>
      cases htr : (if truthy inn = true then sqlEqInt d.innings inn else true) <;>
      cases hoe : (if oe ≠ Scalar.null then sqlLeInt d.over oe else true) <;>
      cases decide (d.over ≥ 0) <;> simp

end IPL
